import Mathlib

/-!
Verification of the reconciliation engine of the `reconciliation` repository
(`pkg/reconcile/reconcile.go` together with the data model of `pkg/types`).

Amounts are Go `float64` values; they are embedded as exact rationals (`ℚ`),
the standard idealisation for currency values carried in floating point.
`math.Round` rounds half away from zero, which is modelled exactly below.
Calendar handling: `time.Time` values are compared through
`Format("2006-01-02")`, i.e. by their calendar-date component only; a
`time.Time` is therefore embedded as a calendar date plus a time-of-day
component that the engine never inspects.
-/

namespace Recon

/-- A calendar date, the image of Go's `Format("2006-01-02")`. -/
structure Date where
  year : Nat
  month : Nat
  day : Nat
deriving DecidableEq, Repr

/-- A `time.Time`: calendar date plus time-of-day (seconds within the day). -/
structure Time where
  date : Date
  secondsOfDay : Nat
deriving DecidableEq, Repr

/-- Go `types.Transaction`: a system-of-record transaction. -/
structure Transaction where
  TrxID : String
  Amount : ℚ
  Type_ : String  -- the Go field is named Type, a keyword in Lean
  TransactionTime : Time
deriving DecidableEq, Repr

/-- Go `types.BankStatement`: one bank statement record. -/
structure BankStatement where
  BankName : String
  UniqueID : String
  Amount : ℚ
  Date : Recon.Date
deriving DecidableEq, Repr

/-- Constant `amountTolerance = 0.01` of `reconcile.go`. -/
def amountTolerance : ℚ := 1/100

/-- Go `abs`: `if value < 0 { return -value }; return value`. -/
def abs (value : ℚ) : ℚ := if value < 0 then -value else value

/-- Go `math.Round`: round to the nearest integer, half away from zero. -/
def mathRound (x : ℚ) : ℤ := if x < 0 then -(⌊-x + 1/2⌋) else ⌊x + 1/2⌋

/-- Go `round`: `math.Round(value*100) / 100`, i.e. round to 2 decimals. -/
def round (value : ℚ) : ℚ := (mathRound (value * 100) : ℚ) / 100

/-- Go `isMatch`: sign rule, then amount-tolerance rule, then date rule. -/
def isMatch (sysTx : Transaction) (bankTx : BankStatement) : Bool :=
  let bankAmount := bankTx.Amount
  if sysTx.Type_ = "DEBIT" ∧ bankAmount > 0 then false
  else if sysTx.Type_ = "CREDIT" ∧ bankAmount < 0 then false
  else if round (abs (sysTx.Amount - abs bankAmount)) > amountTolerance then false
  else decide (sysTx.TransactionTime.date = bankTx.Date)

/-- Structure `ReconcileUnmatched` of `result.go`. -/
structure ReconcileUnmatched where
  TransactionUnmatched : Nat
  SystemUnmatched : List Transaction
  BankUnmatched : List BankStatement
deriving DecidableEq, Repr

/-- Structure `ReconcileResult` of `result.go`. -/
structure ReconcileResult where
  TransactionProcessed : Nat
  TransactionMatched : Nat
  TransactionUnmatched : ReconcileUnmatched
  TotalDiscrepancies : ℚ
deriving DecidableEq, Repr

/-- The mutable state of `Reconcile`'s outer loop: the two matched-id maps
(played by lists of keys mapped to `true`) and the result under construction. -/
structure LoopState where
  matchedSystem : List String
  matchedBank : List String
  result : ReconcileResult
deriving Repr

/-- The inner loop of `Reconcile`: scan `bank` in order, skip records whose
`UniqueID` is already in `matchedBank`, return the first record satisfying
`isMatch` (the `break`), or `none` when the scan falls through. -/
def findMatch (sysTx : Transaction) : List BankStatement → List String → Option BankStatement
  | [], _ => none
  | bankTx :: rest, matchedBank =>
    if bankTx.UniqueID ∈ matchedBank then findMatch sysTx rest matchedBank
    else if isMatch sysTx bankTx then some bankTx
    else findMatch sysTx rest matchedBank

/-- One iteration of `Reconcile`'s outer loop for a single system transaction. -/
def processOne (bank : List BankStatement) (st : LoopState) (sysTx : Transaction) : LoopState :=
  match findMatch sysTx bank st.matchedBank with
  | some bankTx =>
    { st with
      matchedSystem := sysTx.TrxID :: st.matchedSystem
      matchedBank := bankTx.UniqueID :: st.matchedBank
      result := { st.result with
        TransactionMatched := st.result.TransactionMatched + 1
        TotalDiscrepancies :=
          st.result.TotalDiscrepancies + round (abs (sysTx.Amount - abs bankTx.Amount)) } }
  | none =>
    { st with
      result := { st.result with
        TransactionUnmatched := { st.result.TransactionUnmatched with
          TransactionUnmatched := st.result.TransactionUnmatched.TransactionUnmatched + 1
          SystemUnmatched := st.result.TransactionUnmatched.SystemUnmatched ++ [sysTx] } } }

/-- The state of `Reconcile` just before the outer loop runs. -/
def initState (system : List Transaction) : LoopState :=
  { matchedSystem := []
    matchedBank := []
    result :=
      { TransactionProcessed := system.length
        TransactionMatched := 0
        TransactionUnmatched :=
          { TransactionUnmatched := 0, SystemUnmatched := [], BankUnmatched := [] }
        TotalDiscrepancies := 0 } }

/-- The state of `Reconcile` after the outer loop has consumed every system
transaction. -/
def finalState (system : List Transaction) (bank : List BankStatement) : LoopState :=
  system.foldl (processOne bank) (initState system)

/-- Go `Reconcile`: run the outer loop, then collect the bank statements whose
`UniqueID` was never marked matched, in input order. -/
def Reconcile (system : List Transaction) (bank : List BankStatement) : ReconcileResult :=
  let st := finalState system bank
  let unmatchedBank := bank.filter (fun bankTx => !(st.matchedBank.contains bankTx.UniqueID))
  { st.result with
    TransactionUnmatched := { st.result.TransactionUnmatched with
      TransactionUnmatched :=
        st.result.TransactionUnmatched.TransactionUnmatched + unmatchedBank.length
      BankUnmatched := st.result.TransactionUnmatched.BankUnmatched ++ unmatchedBank } }

/-!
Spec-side description of §4.2 of the specification, written independently of
the loop embedding above: the scan over bank records is a `List.find?` with
the predicate "not already marked matched, and satisfying the matching
predicate"; the matched pairs and the unmatched system transactions are
produced by structural recursion over the system sequence, in input order.
-/

/-- The predicate of the §4.2 scan: the bank record is not already marked
matched and satisfies the matching predicate of §4.1. -/
def scanPred (matchedIds : List String) (sysTx : Transaction) (b : BankStatement) : Bool :=
  !(matchedIds.contains b.UniqueID) && isMatch sysTx b

/-- Steps 1–2 of §4.2: the matched pairs, in processing order.  `matchedIds` is
the set of already-matched bank record identifiers. -/
def specPairs (bank : List BankStatement) :
    List Transaction → List String → List (Transaction × BankStatement)
  | [], _ => []
  | sysTx :: rest, matchedIds =>
    match bank.find? (scanPred matchedIds sysTx) with
    | some b => (sysTx, b) :: specPairs bank rest (b.UniqueID :: matchedIds)
    | none => specPairs bank rest matchedIds

/-- Step 3 of §4.2: the system transactions for which the scan found no
satisfying bank record, in input order. -/
def specUnmatchedSys (bank : List BankStatement) :
    List Transaction → List String → List Transaction
  | [], _ => []
  | sysTx :: rest, matchedIds =>
    match bank.find? (scanPred matchedIds sysTx) with
    | some b => specUnmatchedSys bank rest (b.UniqueID :: matchedIds)
    | none => sysTx :: specUnmatchedSys bank rest matchedIds

/-- Sections 4.2 and 4.3 assembled: matched count is the number of matched pairs,
the discrepancy total is the sum of the rounded absolute amount differences
over the matched pairs only, unmatched bank records are the bank records
whose identifier was never matched, in input order, and the unmatched count
counts both sides. -/
def reconcileSpec (system : List Transaction) (bank : List BankStatement) : ReconcileResult :=
  let pairs := specPairs bank system []
  let unSys := specUnmatchedSys bank system []
  let matchedIds := pairs.map (fun p => p.2.UniqueID)
  let unBank := bank.filter (fun b => !(matchedIds.contains b.UniqueID))
  { TransactionProcessed := system.length
    TransactionMatched := pairs.length
    TransactionUnmatched :=
      { TransactionUnmatched := unSys.length + unBank.length
        SystemUnmatched := unSys
        BankUnmatched := unBank }
    TotalDiscrepancies :=
      (pairs.map (fun p => round (abs (p.1.Amount - abs p.2.Amount)))).sum }

/-- The date 2024-03-20. -/
def d0320 : Date := { year := 2024, month := 3, day := 20 }

/-- The date 2024-03-21. -/
def d0321 : Date := { year := 2024, month := 3, day := 21 }

/-- System transaction T1 of the §8 mixed scenario: 100.00 CREDIT. -/
def c3t1 : Transaction :=
  { TrxID := "T1", Amount := 100, Type_ := "CREDIT",
    TransactionTime := { date := d0320, secondsOfDay := 37800 } }

/-- System transaction T2 of the §8 mixed scenario: 200.00 CREDIT. -/
def c3t2 : Transaction :=
  { TrxID := "T2", Amount := 200, Type_ := "CREDIT",
    TransactionTime := { date := d0320, secondsOfDay := 41400 } }

/-- Bank record B1 of the §8 mixed scenario: 100.00. -/
def c3b1 : BankStatement :=
  { BankName := "BANKA", UniqueID := "B1", Amount := 100, Date := d0320 }

/-- Bank record B2 of the §8 mixed scenario: 200.0021. -/
def c3b2 : BankStatement :=
  { BankName := "BANKA", UniqueID := "B2", Amount := 200 + 21/10000, Date := d0320 }

/-- A 100.00 CREDIT system transaction on 2024-03-20. -/
def c2sys : Transaction :=
  { TrxID := "T1", Amount := 100, Type_ := "CREDIT",
    TransactionTime := { date := d0320, secondsOfDay := 37800 } }

/-- A bank record of 100.01: differs from `c2sys` by exactly the tolerance. -/
def c2b001 : BankStatement :=
  { BankName := "BANKA", UniqueID := "B1", Amount := 100 + 1/100, Date := d0320 }

/-- A bank record of 100.011: differs from `c2sys` by tolerance + 0.001. -/
def c2b0011 : BankStatement :=
  { BankName := "BANKA", UniqueID := "B2", Amount := 100 + 11/1000, Date := d0320 }

/-- A bank record of 100.016: rounded difference 0.02, beyond tolerance. -/
def c2b0016 : BankStatement :=
  { BankName := "BANKA", UniqueID := "B3", Amount := 100 + 16/1000, Date := d0320 }

/-- A 100.00 DEBIT system transaction on 2024-03-20. -/
def tDebit100 : Transaction :=
  { TrxID := "T3", Amount := 100, Type_ := "DEBIT",
    TransactionTime := { date := d0320, secondsOfDay := 37800 } }

/-- A 100.00 system transaction with the unrecognised type TRANSFER. -/
def tTransfer100 : Transaction :=
  { TrxID := "T4", Amount := 100, Type_ := "TRANSFER",
    TransactionTime := { date := d0320, secondsOfDay := 37800 } }

/-- A bank record of -100.00 on 2024-03-20. -/
def bNeg100 : BankStatement :=
  { BankName := "BANKA", UniqueID := "B4", Amount := -100, Date := d0320 }

/-- A bank record of 100.00 on 2024-03-21 (one day later). -/
def bPos100Later : BankStatement :=
  { BankName := "BANKA", UniqueID := "B6", Amount := 100, Date := d0321 }

/-- A bank record with identifier D1. -/
def c9dupA : BankStatement :=
  { BankName := "BANKA", UniqueID := "D1", Amount := 100, Date := d0320 }

/-- A second, distinct bank record carrying the same identifier D1. -/
def c9dupB : BankStatement :=
  { BankName := "BANKB", UniqueID := "D1", Amount := 100, Date := d0320 }

/-- Unfolding equation of `specPairs` on a non-empty system list. -/
theorem specPairs_cons (bank : List BankStatement) (sysTx : Transaction)
    (rest : List Transaction) (ids : List String) :
    specPairs bank (sysTx :: rest) ids
      = match bank.find? (scanPred ids sysTx) with
        | some b => (sysTx, b) :: specPairs bank rest (b.UniqueID :: ids)
        | none => specPairs bank rest ids := by
  rfl

/-- Unfolding equation of `specUnmatchedSys` on a non-empty system list. -/
theorem specUnmatchedSys_cons (bank : List BankStatement) (sysTx : Transaction)
    (rest : List Transaction) (ids : List String) :
    specUnmatchedSys bank (sysTx :: rest) ids
      = match bank.find? (scanPred ids sysTx) with
        | some b => specUnmatchedSys bank rest (b.UniqueID :: ids)
        | none => sysTx :: specUnmatchedSys bank rest ids := by
  rfl

/-- The inner loop is the first-fit scan of §4.2: skipping marked records and
breaking on the first satisfying one is `List.find?` with the combined
predicate. -/
theorem findMatch_eq_find? (sysTx : Transaction) (bank : List BankStatement)
    (ids : List String) :
    findMatch sysTx bank ids = bank.find? (scanPred ids sysTx) := by
  induction bank with
  | nil => rfl
  | cons b rest ih =>
    by_cases hmem : b.UniqueID ∈ ids
    · have hc : ids.contains b.UniqueID = true := by
        simpa [List.contains, List.elem_iff] using hmem
      simp [findMatch, List.find?, scanPred, hmem, hc, ih]
    · have hc : ids.contains b.UniqueID = false := by
        simp [List.contains]
        simpa [List.elem_iff] using hmem
      by_cases hm : isMatch sysTx b
      · simp [findMatch, List.find?, scanPred, hmem, hc, hm]
      · simp [findMatch, List.find?, scanPred, hmem, hc, hm, ih]

/-- Characterisation of the outer loop: starting from any state `st`, the
fold's final matched-bank set, counters, discrepancy total and unmatched
lists are those computed by the spec-side recursion seeded with
`st.matchedBank`. -/
theorem foldl_char (bank : List BankStatement) :
    ∀ (system : List Transaction) (st : LoopState),
    (List.foldl (processOne bank) st system).matchedBank
        = ((specPairs bank system st.matchedBank).map (fun p => p.2.UniqueID)).reverse
            ++ st.matchedBank
    ∧ (List.foldl (processOne bank) st system).result.TransactionProcessed
        = st.result.TransactionProcessed
    ∧ (List.foldl (processOne bank) st system).result.TransactionMatched
        = st.result.TransactionMatched + (specPairs bank system st.matchedBank).length
    ∧ (List.foldl (processOne bank) st system).result.TotalDiscrepancies
        = st.result.TotalDiscrepancies
            + ((specPairs bank system st.matchedBank).map
                (fun p => round (abs (p.1.Amount - abs p.2.Amount)))).sum
    ∧ (List.foldl (processOne bank) st system).result.TransactionUnmatched.TransactionUnmatched
        = st.result.TransactionUnmatched.TransactionUnmatched
            + (specUnmatchedSys bank system st.matchedBank).length
    ∧ (List.foldl (processOne bank) st system).result.TransactionUnmatched.SystemUnmatched
        = st.result.TransactionUnmatched.SystemUnmatched
            ++ specUnmatchedSys bank system st.matchedBank
    ∧ (List.foldl (processOne bank) st system).result.TransactionUnmatched.BankUnmatched
        = st.result.TransactionUnmatched.BankUnmatched := by
  intro system
  induction system with
  | nil => intro st; simp [specPairs, specUnmatchedSys]
  | cons sysTx rest ih =>
    intro st
    rw [List.foldl_cons]
    rcases hfind : bank.find? (scanPred st.matchedBank sysTx) with _ | b
    · have hstep : processOne bank st sysTx
          = { st with
              result := { st.result with
                TransactionUnmatched := { st.result.TransactionUnmatched with
                  TransactionUnmatched :=
                    st.result.TransactionUnmatched.TransactionUnmatched + 1
                  SystemUnmatched :=
                    st.result.TransactionUnmatched.SystemUnmatched ++ [sysTx] } } } := by
        simp [processOne, findMatch_eq_find?, hfind]
      have hp : specPairs bank (sysTx :: rest) st.matchedBank
          = specPairs bank rest st.matchedBank := by
        rw [specPairs_cons, hfind]
      have hu : specUnmatchedSys bank (sysTx :: rest) st.matchedBank
          = sysTx :: specUnmatchedSys bank rest st.matchedBank := by
        rw [specUnmatchedSys_cons, hfind]
      obtain ⟨h1, h2, h3, h4, h5, h6, h7⟩ :=
        ih ({ st with
              result := { st.result with
                TransactionUnmatched := { st.result.TransactionUnmatched with
                  TransactionUnmatched :=
                    st.result.TransactionUnmatched.TransactionUnmatched + 1
                  SystemUnmatched :=
                    st.result.TransactionUnmatched.SystemUnmatched ++ [sysTx] } } })
      rw [hstep, hp, hu]
      refine ⟨?_, ?_, ?_, ?_, ?_, ?_, ?_⟩ <;>
        · simp_all
          try omega
    · have hstep : processOne bank st sysTx
          = { st with
              matchedSystem := sysTx.TrxID :: st.matchedSystem
              matchedBank := b.UniqueID :: st.matchedBank
              result := { st.result with
                TransactionMatched := st.result.TransactionMatched + 1
                TotalDiscrepancies :=
                  st.result.TotalDiscrepancies
                    + round (abs (sysTx.Amount - abs b.Amount)) } } := by
        simp [processOne, findMatch_eq_find?, hfind]
      have hp : specPairs bank (sysTx :: rest) st.matchedBank
          = (sysTx, b) :: specPairs bank rest (b.UniqueID :: st.matchedBank) := by
        rw [specPairs_cons, hfind]
      have hu : specUnmatchedSys bank (sysTx :: rest) st.matchedBank
          = specUnmatchedSys bank rest (b.UniqueID :: st.matchedBank) := by
        rw [specUnmatchedSys_cons, hfind]
      obtain ⟨h1, h2, h3, h4, h5, h6, h7⟩ :=
        ih ({ st with
              matchedSystem := sysTx.TrxID :: st.matchedSystem
              matchedBank := b.UniqueID :: st.matchedBank
              result := { st.result with
                TransactionMatched := st.result.TransactionMatched + 1
                TotalDiscrepancies :=
                  st.result.TotalDiscrepancies
                    + round (abs (sysTx.Amount - abs b.Amount)) } })
      rw [hstep, hp, hu]
      refine ⟨?_, ?_, ?_, ?_, ?_, ?_, ?_⟩ <;>
        simp_all <;> first | omega | ring

/-- Membership in the matched-id set does not depend on the order in which the
identifiers were recorded. -/
theorem contains_reverse (l : List String) (x : String) :
    (l.reverse).contains x = l.contains x := by
  simp [List.contains, List.elem_iff, List.mem_reverse]

/-- The function `Reconcile` computes exactly the §4.2–§4.3 description `reconcileSpec`. -/
theorem reconcile_eq_spec (s : List Transaction) (b : List BankStatement) :
    Reconcile s b = reconcileSpec s b := by
  obtain ⟨h1, h2, h3, h4, h5, h6, h7⟩ := foldl_char b s (initState s)
  simp only [initState, List.append_nil] at h1 h2 h3 h4 h5 h6 h7
  have hfilter :
      b.filter (fun tx =>
        !((((specPairs b s []).map (fun p => p.2.UniqueID)).reverse).contains tx.UniqueID))
        = b.filter (fun tx =>
            !(((specPairs b s []).map (fun p => p.2.UniqueID)).contains tx.UniqueID)) :=
    List.filter_congr (fun a _ => by rw [contains_reverse])
  simp only [Reconcile, finalState, reconcileSpec, initState, h1, h2, h3, h4, h5, h6, h7,
    hfilter, List.nil_append, List.append_nil, Nat.zero_add, zero_add]

/-- Every system transaction ends up in exactly one of the matched pairs and
the unmatched-system list. -/
theorem specPairs_length_add (bank : List BankStatement) :
    ∀ (system : List Transaction) (ids : List String),
    (specPairs bank system ids).length + (specUnmatchedSys bank system ids).length
      = system.length := by
  intro system
  induction system with
  | nil => intro ids; simp [specPairs, specUnmatchedSys]
  | cons t rest ih =>
    intro ids
    rcases hfind : bank.find? (scanPred ids t) with _ | b
    · have hp : specPairs bank (t :: rest) ids = specPairs bank rest ids := by
        rw [specPairs_cons, hfind]
      have hu : specUnmatchedSys bank (t :: rest) ids
          = t :: specUnmatchedSys bank rest ids := by
        rw [specUnmatchedSys_cons, hfind]
      rw [hp, hu, List.length_cons, List.length_cons, ← ih ids]
      omega
    · have hp : specPairs bank (t :: rest) ids
          = (t, b) :: specPairs bank rest (b.UniqueID :: ids) := by
        rw [specPairs_cons, hfind]
      have hu : specUnmatchedSys bank (t :: rest) ids
          = specUnmatchedSys bank rest (b.UniqueID :: ids) := by
        rw [specUnmatchedSys_cons, hfind]
      rw [hp, hu, List.length_cons, List.length_cons, ← ih (b.UniqueID :: ids)]
      omega

/-- Soundness of the matched pairs: each pair's bank record comes from the
bank input, satisfies the matching predicate against its system transaction,
and was not already marked; and no bank identifier is used twice. -/
theorem specPairs_sound (bank : List BankStatement) :
    ∀ (system : List Transaction) (ids : List String),
    (∀ p ∈ specPairs bank system ids,
        p.2 ∈ bank ∧ isMatch p.1 p.2 = true ∧ p.2.UniqueID ∉ ids)
    ∧ ((specPairs bank system ids).map (fun p => p.2.UniqueID)).Nodup := by
  intro system
  induction system with
  | nil => intro ids; simp [specPairs]
  | cons t rest ih =>
    intro ids
    rcases hfind : bank.find? (scanPred ids t) with _ | b
    · have hp : specPairs bank (t :: rest) ids = specPairs bank rest ids := by
        rw [specPairs_cons, hfind]
      rw [hp]; exact ih ids
    · have hp : specPairs bank (t :: rest) ids
          = (t, b) :: specPairs bank rest (b.UniqueID :: ids) := by
        rw [specPairs_cons, hfind]
      have hbmem : b ∈ bank := List.mem_of_find?_eq_some hfind
      have hpred : scanPred ids t b = true := List.find?_some hfind
      have hb : b.UniqueID ∉ ids ∧ isMatch t b = true := by
        unfold scanPred at hpred
        simpa [List.contains, List.elem_iff] using hpred
      obtain ⟨ihmem, ihnodup⟩ := ih (b.UniqueID :: ids)
      rw [hp]
      refine ⟨?_, ?_⟩
      · intro p hpmem
        rcases List.mem_cons.mp hpmem with hpe | hpmem'
        · subst hpe; exact ⟨hbmem, hb.2, hb.1⟩
        · obtain ⟨hm1, hm2, hm3⟩ := ihmem p hpmem'
          exact ⟨hm1, hm2, fun hin => hm3 (List.mem_cons_of_mem _ hin)⟩
      · rw [List.map_cons, List.nodup_cons]
        refine ⟨?_, ihnodup⟩
        intro hin
        obtain ⟨p, hpmem', hpe⟩ := List.mem_map.mp hin
        exact (ihmem p hpmem').2.2 (hpe ▸ List.mem_cons_self _ _)

/-- With pairwise-distinct identifiers, a list of strings and its
filter by membership in a nodup subset have the subset's length. -/
theorem length_filter_mem_eq (L S : List String) (hL : L.Nodup) (hS : S.Nodup)
    (hsub : S ⊆ L) : (L.filter (fun x => S.contains x)).length = S.length := by
  have hmem : ∀ x, x ∈ L.filter (fun x => S.contains x) ↔ x ∈ S := by
    intro x
    simp only [List.mem_filter, List.contains, List.elem_iff]
    exact ⟨fun h => h.2, fun h => ⟨hsub h, h⟩⟩
  have hfn : (L.filter (fun x => S.contains x)).Nodup := hL.filter _
  apply Nat.le_antisymm
  · exact (List.subperm_of_subset hfn (fun x hx => (hmem x).mp hx)).length_le
  · exact (List.subperm_of_subset hS (fun x hx => (hmem x).mpr hx)).length_le

/-- No more pairs can be matched than there are bank records: the bank
identifiers of the pairs are distinct and all drawn from the bank input. -/
theorem specPairs_length_le_bank (bank : List BankStatement)
    (system : List Transaction) (ids : List String) :
    (specPairs bank system ids).length ≤ bank.length := by
  obtain ⟨hmem, hnodup⟩ := specPairs_sound bank system ids
  have hsub : (specPairs bank system ids).map (fun p => p.2.UniqueID)
      ⊆ bank.map (fun r => r.UniqueID) := by
    intro x hx
    obtain ⟨p, hpmem, hpe⟩ := List.mem_map.mp hx
    exact List.mem_map.mpr ⟨p.2, (hmem p hpmem).1, hpe⟩
  have := (List.subperm_of_subset hnodup hsub).length_le
  simpa using this

/-- When all bank identifiers are pairwise distinct, every bank record is
accounted for exactly once: matched pairs and unmatched bank records
partition the bank input by count. -/
theorem reconcileSpec_bank_partition (s : List Transaction) (b : List BankStatement)
    (hnd : (b.map (fun r => r.UniqueID)).Nodup) :
    (reconcileSpec s b).TransactionUnmatched.BankUnmatched.length
      + (reconcileSpec s b).TransactionMatched = b.length := by
  obtain ⟨hmem, hnodup⟩ := specPairs_sound b s []
  have hsub : (specPairs b s []).map (fun p => p.2.UniqueID)
      ⊆ b.map (fun r => r.UniqueID) := by
    intro x hx
    obtain ⟨p, hpmem, hpe⟩ := List.mem_map.mp hx
    exact List.mem_map.mpr ⟨p.2, (hmem p hpmem).1, hpe⟩
  have hsplit := List.length_eq_length_filter_add
    (l := b) (fun tx => ((specPairs b s []).map (fun p => p.2.UniqueID)).contains tx.UniqueID)
  have hcomm : (b.map (fun r => r.UniqueID)).filter
        (fun x => ((specPairs b s []).map (fun p => p.2.UniqueID)).contains x)
      = (b.filter (fun tx =>
          ((specPairs b s []).map (fun p => p.2.UniqueID)).contains tx.UniqueID)).map
            (fun r => r.UniqueID) := by
    rw [List.filter_map]
    rfl
  have hin : (b.filter (fun tx =>
        ((specPairs b s []).map (fun p => p.2.UniqueID)).contains tx.UniqueID)).length
      = (specPairs b s []).length := by
    have := length_filter_mem_eq (b.map (fun r => r.UniqueID))
      ((specPairs b s []).map (fun p => p.2.UniqueID)) hnd hnodup hsub
    rw [hcomm] at this
    simpa using this
  simp only [reconcileSpec]
  omega

/-- C1: `Reconcile` processes system transactions in input order and, for
each one, scans bank records in input order skipping those already marked
matched; the first bank record satisfying the matching predicate is marked
matched (ending the scan for that transaction), `matched_count` is
incremented and the rounded absolute amount difference is added to
`discrepancy_total`; a system transaction with no satisfying bank record is
appended to `unmatched_system`, and after all system transactions are
processed every bank record not marked matched is appended to
`unmatched_bank` in input order.  `reconcileSpec` is the direct
transcription of this description (§4.2–§4.3 of the specification), and
`Reconcile` computes exactly it on every pair of inputs. -/
theorem c1_reconcile_first_fit (s : List Transaction) (b : List BankStatement) :
    Reconcile s b = reconcileSpec s b :=
  reconcile_eq_spec s b

/-- C5: `unmatched.count` equals the length of `unmatched_system` plus the
length of `unmatched_bank`; `matched_count` is at most the minimum of
`processed_count` and the length of the bank input; `processed_count`
equals the number of system transactions; and on empty inputs every total
is zero. -/
theorem c5_totals_invariants (s : List Transaction) (b : List BankStatement) :
    (Reconcile s b).TransactionUnmatched.TransactionUnmatched
        = (Reconcile s b).TransactionUnmatched.SystemUnmatched.length
          + (Reconcile s b).TransactionUnmatched.BankUnmatched.length
    ∧ (Reconcile s b).TransactionMatched
        ≤ min (Reconcile s b).TransactionProcessed b.length
    ∧ (Reconcile s b).TransactionProcessed = s.length
    ∧ Reconcile [] []
        = { TransactionProcessed := 0, TransactionMatched := 0,
            TransactionUnmatched :=
              { TransactionUnmatched := 0, SystemUnmatched := [], BankUnmatched := [] },
            TotalDiscrepancies := 0 } := by
  rw [reconcile_eq_spec]
  refine ⟨rfl, ?_, rfl, rfl⟩
  have h1 := specPairs_length_add b s []
  have h2 := specPairs_length_le_bank b s []
  simp only [reconcileSpec]
  omega

/-- C6: no bank record identifier is marked matched more than once in a run
(the matched-bank id set built by the loop is duplicate-free), and every
system transaction is counted exactly once as matched or appended to
`unmatched_system` — so no transaction is both. -/
theorem c6_no_double_matching (s : List Transaction) (b : List BankStatement) :
    ((finalState s b).matchedBank).Nodup
    ∧ (Reconcile s b).TransactionMatched
        + (Reconcile s b).TransactionUnmatched.SystemUnmatched.length = s.length := by
  constructor
  · obtain ⟨h1, -⟩ := foldl_char b s (initState s)
    rw [finalState, h1]
    simp only [initState, List.append_nil]
    exact List.nodup_reverse.mpr (specPairs_sound b s []).2
  · rw [reconcile_eq_spec]
    have h1 := specPairs_length_add b s []
    simp only [reconcileSpec]
    omega

/-- C8: `Reconcile` is deterministic — any two invocations on the same two
input sequences in the same order produce identical results; the embedding
is a pure function of the inputs, with no other state consulted. -/
theorem c8_deterministic (s₁ : List Transaction) (b₁ : List BankStatement)
    (s₂ : List Transaction) (b₂ : List BankStatement)
    (hs : s₁ = s₂) (hb : b₁ = b₂) :
    Reconcile s₁ b₁ = Reconcile s₂ b₂ := by
  subst hs
  subst hb
  rfl

/-! Concrete records used by the boundary scenarios and witnesses. -/

theorem c3t1_matches_c3b1 : isMatch c3t1 c3b1 = true := by
  unfold isMatch
  norm_num [c3t1, c3b1, abs, round, mathRound, amountTolerance, d0320]
  simp

theorem c3t2_matches_c3b2 : isMatch c3t2 c3b2 = true := by
  unfold isMatch
  norm_num [c3t2, c3b2, abs, round, mathRound, amountTolerance, d0320]
  simp

theorem c3b1_id : c3b1.UniqueID = "B1" := rfl
theorem c3b2_id : c3b2.UniqueID = "B2" := rfl

theorem c3_disc1 : round (abs (c3t1.Amount - abs c3b1.Amount)) = 0 := by
  norm_num [c3t1, c3b1, abs, round, mathRound]

theorem c3_disc2 : round (abs (c3t2.Amount - abs c3b2.Amount)) = 0 := by
  norm_num [c3t2, c3b2, abs, round, mathRound]

/-- Full evaluation of the §8 mixed scenario: both transactions match, with a
zero rounded discrepancy from each pair. -/
theorem c3_run :
    Reconcile [c3t1, c3t2] [c3b1, c3b2]
      = { TransactionProcessed := 2, TransactionMatched := 2,
          TransactionUnmatched :=
            { TransactionUnmatched := 0, SystemUnmatched := [], BankUnmatched := [] },
          TotalDiscrepancies := 0 } := by
  simp [Reconcile, finalState, initState, processOne, findMatch,
    c3t1_matches_c3b1, c3t2_matches_c3b2, c3b1_id, c3b2_id, c3_disc1, c3_disc2]

/-- C3: `discrepancy_total` is accumulated only over matched pairs — it is
exactly the sum, over the matched pairs, of the rounded absolute amount
differences, so unmatched items contribute zero — and on the concrete §8
scenario (T1 100.00 CREDIT and T2 200.00 CREDIT against B1 100.00 and
B2 200.0021, all on 2024-03-20) the result has `matched_count = 2`,
`discrepancy_total` within the comparison tolerance of 0.0021 (the exact
value is 0, since each pair's contribution is rounded to 2 decimals before
accumulation), and `unmatched.count = 0`. -/
theorem c3_discrepancy_only_matched :
    (∀ (s : List Transaction) (b : List BankStatement),
        (Reconcile s b).TotalDiscrepancies
          = ((specPairs b s []).map
              (fun p => round (abs (p.1.Amount - abs p.2.Amount)))).sum)
    ∧ (Reconcile [c3t1, c3t2] [c3b1, c3b2]).TransactionMatched = 2
    ∧ abs ((Reconcile [c3t1, c3t2] [c3b1, c3b2]).TotalDiscrepancies - 21/10000)
        ≤ amountTolerance
    ∧ (Reconcile [c3t1, c3t2] [c3b1, c3b2]).TransactionUnmatched.TransactionUnmatched
        = 0 := by
  refine ⟨?_, ?_, ?_, ?_⟩
  · intro s b
    rw [reconcile_eq_spec]
    rfl
  · rw [c3_run]
  · rw [c3_run]
    norm_num [abs, amountTolerance]
  · rw [c3_run]

/-- C2 counterexample: a CREDIT/positive same-date pair whose amounts differ
by exactly 0.011 = tolerance + 0.001 nonetheless matches, because the code
rounds the difference to 2 decimals (0.011 → 0.01) before comparing it with
the tolerance 0.01 — refuting the claim that such a pair does not match. -/
theorem c2_counterexample_tolerance_boundary :
    abs (c2sys.Amount - abs c2b0011.Amount) = 11/1000
    ∧ c2sys.Type_ = "CREDIT"
    ∧ c2b0011.Amount > 0
    ∧ c2sys.TransactionTime.date = c2b0011.Date
    ∧ isMatch c2sys c2b0011 = true := by
  refine ⟨by norm_num [c2sys, c2b0011, abs], rfl, by norm_num [c2b0011], rfl, ?_⟩
  unfold isMatch
  norm_num [c2sys, c2b0011, abs, round, mathRound, amountTolerance, d0320]
  simp

/-- C2 (amended): for pairs that pass the sign and date rules, the pair
matches exactly when the absolute amount difference, rounded to 2 decimal
places before the comparison, does not exceed the tolerance constant 0.01.
A pair whose amounts differ by exactly 0.01 matches; a pair whose amounts
differ by 0.011 (tolerance + 0.001) rounds to 0.01 and therefore also
matches; a pair whose rounded difference exceeds the tolerance — e.g.
amounts differing by 0.016, which rounds to 0.02 — does not match. -/
theorem c2_tolerance_boundary :
    (∀ (sysTx : Transaction) (bankTx : BankStatement),
        ¬(sysTx.Type_ = "DEBIT" ∧ bankTx.Amount > 0) →
        ¬(sysTx.Type_ = "CREDIT" ∧ bankTx.Amount < 0) →
        sysTx.TransactionTime.date = bankTx.Date →
        (isMatch sysTx bankTx = true
          ↔ round (abs (sysTx.Amount - abs bankTx.Amount)) ≤ amountTolerance))
    ∧ abs (c2sys.Amount - abs c2b001.Amount) = 1/100
    ∧ isMatch c2sys c2b001 = true
    ∧ abs (c2sys.Amount - abs c2b0011.Amount) = 11/1000
    ∧ isMatch c2sys c2b0011 = true
    ∧ abs (c2sys.Amount - abs c2b0016.Amount) = 16/1000
    ∧ isMatch c2sys c2b0016 = false := by
  refine ⟨?_, by norm_num [c2sys, c2b001, abs], ?_,
    by norm_num [c2sys, c2b0011, abs], ?_,
    by norm_num [c2sys, c2b0016, abs], ?_⟩
  · intro sysTx bankTx hd hc hdate
    by_cases hr : round (abs (sysTx.Amount - abs bankTx.Amount)) > amountTolerance
    · simp [isMatch, hd, hc, hdate, hr, not_le.mpr hr]
    · simp [isMatch, hd, hc, hdate, hr, not_lt.mp hr]
  · unfold isMatch
    norm_num [c2sys, c2b001, abs, round, mathRound, amountTolerance, d0320]
    simp
  · unfold isMatch
    norm_num [c2sys, c2b0011, abs, round, mathRound, amountTolerance, d0320]
    simp
  · unfold isMatch
    norm_num [c2sys, c2b0016, abs, round, mathRound, amountTolerance, d0320]

/-- Witness for the amended C2: at the concrete tolerance-boundary pair the
general characterisation yields the match, with the rounded difference
evaluated concretely. -/
theorem c2_tolerance_boundary_witness : isMatch c2sys c2b001 = true :=
  (c2_tolerance_boundary.1 c2sys c2b001
      (by simp [c2sys])
      (by norm_num [c2sys, c2b001])
      rfl).mpr
    (by norm_num [c2sys, c2b001, abs, round, mathRound, amountTolerance])

/-- C4: a DEBIT system transaction never matches a bank record with strictly
positive signed amount; a CREDIT system transaction never matches one with
strictly negative signed amount; and a zero-amount bank record passes the
sign rule in both directions, leaving only the amount-tolerance and date
rules to decide the match. -/
theorem c4_sign_rules :
    (∀ (sysTx : Transaction) (bankTx : BankStatement),
        sysTx.Type_ = "DEBIT" → bankTx.Amount > 0 → isMatch sysTx bankTx = false)
    ∧ (∀ (sysTx : Transaction) (bankTx : BankStatement),
        sysTx.Type_ = "CREDIT" → bankTx.Amount < 0 → isMatch sysTx bankTx = false)
    ∧ (∀ (sysTx : Transaction) (bankTx : BankStatement),
        bankTx.Amount = 0 →
        isMatch sysTx bankTx
          = (if round (abs (sysTx.Amount - abs bankTx.Amount)) > amountTolerance
             then false
             else decide (sysTx.TransactionTime.date = bankTx.Date))) := by
  refine ⟨?_, ?_, ?_⟩
  · intro sysTx bankTx h1 h2
    simp [isMatch, h1, h2]
  · intro sysTx bankTx h1 h2
    simp [isMatch, h1, h2]
  · intro sysTx bankTx h0
    simp [isMatch, h0]

/-- Witness for C4: the DEBIT-vs-positive and CREDIT-vs-negative rejections
at concrete equal-magnitude same-date pairs. -/
theorem c4_sign_rules_witness :
    isMatch tDebit100 c3b1 = false ∧ isMatch c2sys bNeg100 = false :=
  ⟨c4_sign_rules.1 tDebit100 c3b1 rfl (by norm_num [c3b1]),
   c4_sign_rules.2.1 c2sys bNeg100 rfl (by norm_num [bNeg100])⟩

/-- C7: a match forces the system transaction's calendar-date component to
equal the bank record's date; unequal dates (in particular dates one
calendar day apart) never match regardless of amounts and signs; and the
predicate is insensitive to the time-of-day of the system transaction. -/
theorem c7_date_exactness :
    (∀ (sysTx : Transaction) (bankTx : BankStatement),
        isMatch sysTx bankTx = true → sysTx.TransactionTime.date = bankTx.Date)
    ∧ (∀ (sysTx : Transaction) (bankTx : BankStatement),
        sysTx.TransactionTime.date ≠ bankTx.Date → isMatch sysTx bankTx = false)
    ∧ (∀ (sysTx : Transaction) (bankTx : BankStatement) (n : Nat),
        isMatch
          { sysTx with TransactionTime :=
              { date := sysTx.TransactionTime.date, secondsOfDay := n } } bankTx
          = isMatch sysTx bankTx) := by
  refine ⟨?_, ?_, ?_⟩
  · intro sysTx bankTx h
    simp only [isMatch] at h
    split_ifs at h
    all_goals simp_all
  · intro sysTx bankTx hne
    simp only [isMatch]
    split_ifs <;> simp [hne]
  · intro sysTx bankTx n
    rfl

/-- Witness for C7: identical amounts and signs one calendar day apart do
not match. -/
theorem c7_date_exactness_witness : isMatch c2sys bPos100Later = false :=
  c7_date_exactness.2.1 c2sys bPos100Later (by decide)

/-- C10: for a system transaction whose type is neither DEBIT nor CREDIT the
sign rule is bypassed entirely: the match is decided by the amount-tolerance
rule and the date rule alone, whatever the bank record's sign. -/
theorem c10_unknown_type_bypasses_sign :
    ∀ (sysTx : Transaction) (bankTx : BankStatement),
      sysTx.Type_ ≠ "DEBIT" → sysTx.Type_ ≠ "CREDIT" →
      isMatch sysTx bankTx
        = (if round (abs (sysTx.Amount - abs bankTx.Amount)) > amountTolerance
           then false
           else decide (sysTx.TransactionTime.date = bankTx.Date)) := by
  intro sysTx bankTx h1 h2
  simp [isMatch, h1, h2]

/-- Witness for C10: a TRANSFER-typed transaction matches both a negative
and a positive bank record of the right amount and date. -/
theorem c10_unknown_type_bypasses_sign_witness :
    isMatch tTransfer100 bNeg100 = true ∧ isMatch tTransfer100 c3b1 = true := by
  constructor
  · rw [c10_unknown_type_bypasses_sign tTransfer100 bNeg100
      (by simp [tTransfer100]) (by simp [tTransfer100])]
    norm_num [tTransfer100, bNeg100, abs, round, mathRound, amountTolerance]
  · rw [c10_unknown_type_bypasses_sign tTransfer100 c3b1
      (by simp [tTransfer100]) (by simp [tTransfer100])]
    norm_num [tTransfer100, c3b1, abs, round, mathRound, amountTolerance]

theorem c2sys_matches_c9dupA : isMatch c2sys c9dupA = true := by
  unfold isMatch
  norm_num [c2sys, c9dupA, abs, round, mathRound, amountTolerance, d0320]
  simp

theorem c9dupA_id : c9dupA.UniqueID = "D1" := rfl
theorem c9dupB_id : c9dupB.UniqueID = "D1" := rfl

theorem c9_disc : round (abs (c2sys.Amount - abs c9dupA.Amount)) = 0 := by
  norm_num [c2sys, c9dupA, abs, round, mathRound]

/-- Evaluation of a run with two bank records sharing identifier D1: the
first is matched and the second then appears nowhere — it is skipped for
matching and also omitted from `unmatched_bank`. -/
theorem c9_run :
    Reconcile [c2sys] [c9dupA, c9dupB]
      = { TransactionProcessed := 1, TransactionMatched := 1,
          TransactionUnmatched :=
            { TransactionUnmatched := 0, SystemUnmatched := [], BankUnmatched := [] },
          TotalDiscrepancies := 0 } := by
  simp [Reconcile, finalState, initState, processOne, findMatch,
    c2sys_matches_c9dupA, c9dupA_id, c9dupB_id, c9_disc]

/-- C9: the inner scan never returns a bank record whose identifier is
already marked; every record placed in `unmatched_bank` has an unmarked
identifier (so a later duplicate of a matched identifier appears nowhere in
the result, as the concrete D1 run shows); and when all bank identifiers are
pairwise distinct every bank record is accounted for exactly once, as
matched or as unmatched. -/
theorem c9_duplicate_bank_ids (s : List Transaction) (b : List BankStatement) :
    (∀ (sysTx : Transaction) (ids : List String) (rec : BankStatement),
        findMatch sysTx b ids = some rec → rec.UniqueID ∉ ids)
    ∧ (∀ rec ∈ (Reconcile s b).TransactionUnmatched.BankUnmatched,
        rec.UniqueID ∉ (finalState s b).matchedBank)
    ∧ ((b.map (fun r => r.UniqueID)).Nodup →
        (Reconcile s b).TransactionMatched
          + (Reconcile s b).TransactionUnmatched.BankUnmatched.length = b.length)
    ∧ Reconcile [c2sys] [c9dupA, c9dupB]
        = { TransactionProcessed := 1, TransactionMatched := 1,
            TransactionUnmatched :=
              { TransactionUnmatched := 0, SystemUnmatched := [], BankUnmatched := [] },
            TotalDiscrepancies := 0 } := by
  refine ⟨?_, ?_, ?_, c9_run⟩
  · intro sysTx ids rec h
    rw [findMatch_eq_find?] at h
    have hpred := List.find?_some h
    unfold scanPred at hpred
    simp only [Bool.and_eq_true, Bool.not_eq_true', List.contains,
      List.elem_eq_mem, decide_eq_false_iff_not] at hpred
    exact hpred.1
  · intro rec hrec
    have hBU : (Reconcile s b).TransactionUnmatched.BankUnmatched
        = b.filter (fun tx => !((finalState s b).matchedBank.contains tx.UniqueID)) := by
      obtain ⟨-, -, -, -, -, -, h7⟩ := foldl_char b s (initState s)
      simp only [Reconcile, finalState] at h7 ⊢
      rw [h7]
      simp [initState]
    rw [hBU] at hrec
    have := (List.mem_filter.mp hrec).2
    simpa [List.contains, List.elem_iff] using this
  · intro hnd
    rw [reconcile_eq_spec]
    have := reconcileSpec_bank_partition s b hnd
    omega

/-- Witness for C9: with the two distinct identifiers B1 and B2 the matched
and unmatched bank counts add up to the bank input's length. -/
theorem c9_duplicate_bank_ids_witness :
    (Reconcile [c3t1] [c3b1, c3b2]).TransactionMatched
      + (Reconcile [c3t1] [c3b1, c3b2]).TransactionUnmatched.BankUnmatched.length = 2 := by
  have h := (c9_duplicate_bank_ids [c3t1] [c3b1, c3b2]).2.2.1 (by decide)
  simpa using h

/-- Witness for C8: the two runs on the same concrete inputs coincide. -/
theorem c8_deterministic_witness :
    Reconcile [c3t1] [c3b1] = Reconcile [c3t1] [c3b1] :=
  c8_deterministic [c3t1] [c3b1] [c3t1] [c3b1] rfl rfl

end Recon
